import Mathlib

/-!
Shallow embedding of the core execution engine of the `winter_drp` pipeline
(`winterdrp/data/base_data.py`, `winterdrp/data/image_data.py`,
`winterdrp/processors/base_processor.py`, `winterdrp/monitor/base_monitor.py`,
`winterdrp/processors/astromatic/scamp/scamp.py`,
`winterdrp/processors/astromatic/psfex/psfex.py`), together with theorems
settling the specification claims about it.

Python exceptions are modelled by an explicit error type and `Except` or
`Option` results; mutable state (the filesystem, the scratch-file registry)
is passed explicitly.  Machine-level concerns (numpy payload bytes) are
uninterpreted.
-/

/-- Model of the Python exception classes that the embedded code can raise:
`ValueError`, `TypeError`, `FileNotFoundError`, the package error classes
`PrerequisiteError` and `NoncriticalProcessingError` (both subclasses of
`ProcessorError`), and a catch-all for any other exception. -/
inductive PyErr where
  | valueError
  | typeError
  | fileNotFound
  | prerequisite
  | noncriticalProcessing
  | keyError
  | otherExc
deriving DecidableEq, Repr

/-- Model of `isinstance(e, NoncriticalProcessingError)` as used by the
`except NoncriticalProcessingError` clause in `BaseProcessor.base_apply`. -/
def PyErr.isNoncritical : PyErr → Bool
  | .noncriticalProcessing => true
  | _ => false

/- ## `winterdrp/data/base_data.py`: `PseudoList`, `DataBatch`, `Dataset`

The container logic of `PseudoList` is polymorphic over the concrete
`DataBlock` subclass of its elements; only the class of each element matters
to `_append`, so elements are modelled as a type tag plus an identity. -/

/-- Tags for the concrete `DataBlock` subclasses relevant to the container
contract: `Image`, a strict subclass of `Image`, and `SourceTable`. -/
inductive BlockTag where
  | image
  | specialImage
  | sourceTable
deriving DecidableEq, Repr

/-- Model of `isinstance(item, data_type)`: the first argument is the class
of the item, the second the declared `data_type` of the container.
`specialImage` is a subclass of `image`; otherwise classes must be equal. -/
def isinstance_tag : BlockTag → BlockTag → Bool
  | .specialImage, .image => true
  | t, d => t == d

/-- An element of a `PseudoList`: its concrete class plus an identity
distinguishing different objects of the same class. -/
structure PItem where
  tag : BlockTag
  ident : Nat
deriving DecidableEq, Repr

/-- Model of a `PseudoList` instance: the `data_type` declared by the
concrete container class, and the `_datalist` contents. -/
structure PList where
  declared : BlockTag
  datalist : List PItem
deriving DecidableEq, Repr

/-- Model of `PseudoList._append` (reached via `append`).  The Python code
first checks `isinstance(item, self.data_type)` and raises `ValueError` on
failure; then, if `_datalist` is non-empty, raises `ValueError` when
`type(self._datalist[0]) != type(item)`; only then mutates `_datalist`.
The result pairs the (possibly updated) container with the raised
exception, if any; a raise happens before the mutation, so on error the
container is returned unchanged. -/
def pseudo_append (l : PList) (item : PItem) : PList × Option PyErr :=
  if !(isinstance_tag item.tag l.declared) then
    (l, some PyErr.valueError)
  else
    match l.datalist with
    | [] => (⟨l.declared, l.datalist ++ [item]⟩, none)
    | x :: _ =>
      if x.tag == item.tag then (⟨l.declared, l.datalist ++ [item]⟩, none)
      else (l, some PyErr.valueError)

/-- Model of `PseudoList.__iadd__`: `for item in other.get_data_list():
self._datalist.append(item)` — raw list append, no type check. -/
def pseudo_iadd (l other : PList) : PList :=
  ⟨l.declared, l.datalist ++ other.datalist⟩

/-- Helper for `__add__`: append the given items one by one through the
checked `append`, stopping at the first raised exception. -/
def append_all (l : PList) : List PItem → PList × Option PyErr
  | [] => (l, none)
  | x :: rest =>
    match pseudo_append l x with
    | (l2, none) => append_all l2 rest
    | (l2, some e) => (l2, some e)

/-- Model of `PseudoList.__add__`: `new = self.__class__()` (same declared
`data_type`, empty contents), then every item of `self` and of `other` is
pushed through the checked `append`. -/
def pseudo_add (l other : PList) : PList × Option PyErr :=
  match append_all ⟨l.declared, []⟩ l.datalist with
  | (l2, none) => append_all l2 other.datalist
  | (l2, some e) => (l2, some e)

/-- Homogeneity invariant of a container: all elements share the concrete
class of the first element. -/
def homogeneous (l : PList) : Bool :=
  match l.datalist with
  | [] => true
  | x :: rest => rest.all (fun y => y.tag == x.tag)

/- ## `winterdrp/data/image_data.py`: the `Image` data block

An `Image` holds a FITS header and a numpy payload.  The header keys used by
the engine (`winterdrp/paths.py`: `BASENAME`, `CALSTEPS`, `RAWPATH`,
`SAVEPATH`, and the provenance keys written by
`_update_processing_history`) are modelled as fields; the pixel payload is
uninterpreted and modelled as a bare `Nat`. -/

/-- Model of an `Image` data block (header fields plus opaque payload). -/
structure ImageM where
  base_name : String
  proc_history : String
  raw_img : String
  reducer : Option String
  redmach : Option String
  redtime : Option String
  redsoft : Option String
  save_path : Option String
  data : Nat
deriving DecidableEq, Repr

/-- Model of `pathlib.Path(x).name`: the final component of a slash
separated path. -/
def path_name (s : String) : String :=
  (s.splitOn "/").getLastD s

/-- Model of `DataBatch.get_raw_image_names`: for each block, the basenames
of the entries of `self[raw_img_key].split(",")`, concatenated over the
batch. -/
def get_raw_image_names (batch : List ImageM) : List String :=
  batch.foldl (fun acc b => acc ++ (b.raw_img.splitOn ",").map path_name) []

/- ## `winterdrp/processors/base_processor.py`: `ImageHandler.get_hash` -/

/-- Modelled stand-in for `hashlib.sha1(key.encode()).hexdigest()`, an
external library call: some fixed deterministic function of the input
string.  The claims about the fingerprint rely only on the digest being a
function of the key string. -/
def sha1_hexdigest (s : String) : String :=
  let n := s.data.foldl (fun acc c => (acc * 31 + c.toNat) % (2 ^ 160)) 7
  (Nat.toDigits 16 n).asString

/-- Model of Python `sorted` on a list of strings: the unique
lexicographically ordered permutation. -/
def sorted_strings (l : List String) : List String :=
  List.insertionSort (fun a b => a ≤ b) l

/-- Model of `ImageHandler.get_hash`:
`key = "".join(sorted([x[base_name_key] + x[proc_history_key] for x in image]))`
followed by the sha1 hexdigest of `key`. -/
def get_hash (image : List ImageM) : String :=
  let key := String.join (sorted_strings (image.map (fun x => x.base_name ++ x.proc_history)))
  sha1_hexdigest key

theorem sorted_strings_eq_of_perm {l1 l2 : List String} (h : l1.Perm l2) :
    sorted_strings l1 = sorted_strings l2 :=
  List.eq_of_perm_of_sorted
    ((List.perm_insertionSort _ l1).trans (h.trans (List.perm_insertionSort _ l2).symm))
    (List.sorted_insertionSort _ l1)
    (List.sorted_insertionSort _ l2)

/- ## `winterdrp/processors/base_processor.py`: `BaseProcessor`

A processor instance is its stable `base_key`, its `__module__` (used for
error reports), and the subclass transformation `_apply`; the latter may
raise, which is modelled with `Except PyErr`.  The values read from the
execution environment in `_update_processing_history` (`getpass.getuser()`,
`socket.gethostname()`, `datetime.datetime.now()`, `package_name`) are
passed in explicitly as a provenance record. -/

/-- Execution-environment values stamped by `_update_processing_history`. -/
structure Provenance where
  user : String
  host : String
  time : String
  package : String
deriving DecidableEq, Repr

/-- Model of a `BaseProcessor` instance operating on image batches. -/
structure ProcessorM where
  base_key : String
  module : String
  appF : List ImageM → Except PyErr (List ImageM)

/-- Model of `ErrorReport(exception, self.__module__, batch.get_raw_image_names())`
as built by `BaseDPU.generate_error_report`.  `ErrorReport` itself lives in
`winterdrp/errors.py`, which is absent from the sources; its constructor
arguments are taken from this call site. -/
structure ErrorReport where
  error : PyErr
  processor_name : String
  contents : List String
deriving DecidableEq, Repr

/-- Model of `BaseDPU.generate_error_report`. -/
def generate_error_report (P : ProcessorM) (e : PyErr) (batch : List ImageM) : ErrorReport :=
  ⟨e, P.module, get_raw_image_names batch⟩

/-- Model of `BaseProcessor._update_processing_history`: for every block of
the batch, append `base_key + ","` to the `CALSTEPS` header value and stamp
the `REDUCER`, `REDMACH`, `REDTIME` and `REDSOFT` provenance keys. -/
def update_processing_history (key : String) (prov : Provenance) (batch : List ImageM) : List ImageM :=
  batch.map (fun b =>
    { b with
      proc_history := b.proc_history ++ key ++ ","
      reducer := some prov.user
      redmach := some prov.host
      redtime := some prov.time
      redsoft := some prov.package })

namespace BaseProcessor

/-- Model of `BaseProcessor.apply`: run the subclass `_apply`, then
`_update_processing_history` on its result.  An exception raised by
`_apply` propagates and the history update never runs. -/
def apply (P : ProcessorM) (prov : Provenance) (batch : List ImageM) : Except PyErr (List ImageM) :=
  match P.appF batch with
  | .ok b => .ok (update_processing_history P.base_key prov b)
  | .error e => .error e

/-- Model of `BaseProcessor.base_apply`: iterate over the batches of the
dataset in order (the Python `for` loop is rendered as structural
recursion, preserving order); a successful `apply` passes the new batch
through, a `NoncriticalProcessingError` records an error report and passes
the original batch through, any other exception records an error report
and drops the batch.  `BaseProcessor.update_dataset` is the identity and is
elided.  Returns the passed batches and the accumulated error stack. -/
def base_apply (P : ProcessorM) (prov : Provenance) :
    List (List ImageM) → List (List ImageM) × List ErrorReport
  | [] => ([], [])
  | batch :: rest =>
    let tail := base_apply P prov rest
    match apply P prov batch with
    | .ok b2 => (b2 :: tail.1, tail.2)
    | .error e =>
      if e.isNoncritical then
        (batch :: tail.1, generate_error_report P e batch :: tail.2)
      else
        (tail.1, generate_error_report P e batch :: tail.2)

theorem base_apply_append (P : ProcessorM) (prov : Provenance) (l1 l2 : List (List ImageM)) :
    base_apply P prov (l1 ++ l2) =
      ((base_apply P prov l1).1 ++ (base_apply P prov l2).1,
       (base_apply P prov l1).2 ++ (base_apply P prov l2).2) := by
  induction l1 with
  | nil => simp [base_apply]
  | cons b rest ih =>
    simp only [List.cons_append, base_apply]
    cases apply P prov b with
    | ok b2 => simp [ih]
    | error e =>
      by_cases h : e.isNoncritical <;> simp [h, ih]

end BaseProcessor

/- ## `winterdrp/paths.py`: output-path construction -/

/-- Model of `os.path.join(a, b)` for two components: an absolute second
component replaces the first; otherwise the components are joined with a
single separator. -/
def os_path_join (a b : String) : String :=
  if b.startsWith "/" then b
  else if a = "" || a.endsWith "/" then a ++ b
  else a ++ "/" ++ b

/-- Model of `get_output_dir(dir_root, sub_dir, output_dir)`:
`os.path.join(output_dir, os.path.join(str(sub_dir), dir_root))`. -/
def get_output_dir (dir_root sub_dir output_dir : String) : String :=
  os_path_join output_dir (os_path_join sub_dir dir_root)

/-- Model of `get_output_path(base_name, dir_root, sub_dir, output_dir)`. -/
def get_output_path (base_name dir_root sub_dir output_dir : String) : String :=
  os_path_join (get_output_dir dir_root sub_dir output_dir) base_name

/- ## `winterdrp/processors/base_processor.py`: `ProcessorWithCache`

The filesystem is modelled as an association list from paths to stored
images; `save_to_path` shadows any previous entry.  The subclass methods
`select_cache_images` and `make_image` are passed in as functions, and the
configuration flags of `ProcessorWithCache.__init__` as a record.  A call
counter in the result counts the invocations of `make_image`. -/

/-- Filesystem model: newest write first, `lookup` finds the newest. -/
def FS := List (String × ImageM)

/-- Model of the constructor arguments and identity of a
`ProcessorWithCache` instance. -/
structure CacheCfg where
  try_load_cache : Bool
  write_to_cache : Bool
  overwrite : Bool
  base_key : String
  cache_sub_dir : String
  night_sub_dir : String
  output_dir : String

/-- Model of `ImageHandler.save_fits`: sets `header[latest_save_key] = path`
and writes the image at the path. -/
def save_fits (image : ImageM) (path : String) (fs : FS) : FS :=
  (path, { image with save_path := some path }) :: fs

/-- Model of `ProcessorWithCache.get_cache_file_name`:
`f"{self.base_key}_{self.get_hash(cache_images)}.fits"` on the selected
cache images. -/
def get_cache_file_name (cfg : CacheCfg) (select : List ImageM → List ImageM)
    (images : List ImageM) : String :=
  cfg.base_key ++ "_" ++ get_hash (select images) ++ ".fits"

/-- Model of `ProcessorWithCache.get_cache_path` (the `os.makedirs` call
only creates directories and is elided). -/
def get_cache_path (cfg : CacheCfg) (select : List ImageM → List ImageM)
    (images : List ImageM) : String :=
  get_output_path (get_cache_file_name cfg select images) cfg.cache_sub_dir
    cfg.night_sub_dir cfg.output_dir

/-- Model of `ProcessorWithCache.get_cache_file`.  `exists = os.path.exists(path)`
is the lookup being defined; `np.logical_and(self.try_load_cache, exists)`
guards the load branch (opening the file is rendered by matching on the
lookup), else `make_image` runs and the result is written back exactly when
`self.write_to_cache` and `np.sum([not exists, self.overwrite]) > 0`.  The
third component counts `make_image` invocations. -/
def get_cache_file (cfg : CacheCfg) (select : List ImageM → List ImageM)
    (mk : List ImageM → ImageM) (fs : FS) (images : List ImageM) :
    ImageM × FS × Nat :=
  let path := get_cache_path cfg select images
  let ex := (List.lookup path fs).isSome
  match List.lookup path fs with
  | some cached =>
    if cfg.try_load_cache then (cached, fs, 0)
    else
      let image := mk images
      (image, if cfg.write_to_cache && (!ex || cfg.overwrite) then save_fits image path fs else fs, 1)
  | none =>
    let image := mk images
    (image, if cfg.write_to_cache && (!ex || cfg.overwrite) then save_fits image path fs else fs, 1)

/- ## `winterdrp/data/image_data.py`: the scratch cache and its cleanup

The on-disk scratch directory is modelled as the list of existing scratch
file paths, and `Image.cache_files` (the registry of paths created during
the session) as a list of paths. -/

/-- The scratch-file state: the files currently on disk and the session
registry `Image.cache_files`. -/
structure ScratchState where
  files : List String
  registry : List String
deriving DecidableEq, Repr

/-- Model of `pathlib.Path.unlink()` without `missing_ok`: removes the file,
raising `FileNotFoundError` when it does not exist. -/
def unlink_strict (path : String) (files : List String) : Except PyErr (List String) :=
  if path ∈ files then .ok (files.erase path) else .error PyErr.fileNotFound

/-- The loop of `clean_cache`: `for x in Image.cache_files: x.unlink()`. -/
def clean_cache_loop : List String → List String → Except PyErr (List String)
  | [], files => .ok files
  | p :: rest, files =>
    match unlink_strict p files with
    | .ok files2 => clean_cache_loop rest files2
    | .error e => .error e

/-- Model of `clean_cache`: unlink every registered path in order, then
reset `Image.cache_files = []`.  An exception raised mid-loop propagates
and the registry reset never runs. -/
def clean_cache (s : ScratchState) : Except PyErr ScratchState :=
  match clean_cache_loop s.registry s.files with
  | .ok files2 => .ok ⟨files2, []⟩
  | .error e => .error e

/-- Model of `Image.__del__`: `self.cache_path.unlink(missing_ok=True)`
(removal that tolerates a missing file) followed by
`self.cache_files.remove(self.cache_path)`, which raises `ValueError` when
the path is not registered. -/
def image_del (s : ScratchState) (cache_path : String) : Except PyErr ScratchState :=
  let files2 := s.files.erase cache_path
  if cache_path ∈ s.registry then .ok ⟨files2, s.registry.erase cache_path⟩
  else .error PyErr.valueError

/- ## `winterdrp/monitor/base_monitor.py`: midway-deadline clamping -/

/-- Model of the clamping step of `Monitor.__init__` (lines 129-141): after
`final_postprocess_hours` and `midway_postprocess_hours` are converted to
hour quantities, if midway exceeds final it is reset to `0.95 *` final and
a warning is logged.  Durations are modelled as rationals; the returned
flag records whether the warning was logged. -/
def monitor_clamp_midway (midway final : ℚ) : ℚ × Bool :=
  if midway > final then ((0.95 : ℚ) * final, true) else (midway, false)

/- ## `scamp.py` / `psfex.py`: `check_prerequisites` -/

/-- Tags for the processor classes appearing in `preceding_steps` for the
prerequisite checks: `Sextractor` and any other processor. -/
inductive ProcStep where
  | sextractor
  | otherProc
deriving DecidableEq, Repr

/-- Model of `Scamp.check_prerequisites`:
`check = np.sum([isinstance(x, Sextractor) for x in self.preceding_steps])`,
and `raise ValueError` when `check < 1`. -/
def scamp_check_prerequisites (preceding_steps : List ProcStep) : Option PyErr :=
  let check := (preceding_steps.map (fun x => if x == ProcStep.sextractor then 1 else 0)).sum
  if check < 1 then some PyErr.valueError else none

/-- Model of `PSFex.check_prerequisites`, textually identical to the Scamp
check. -/
def psfex_check_prerequisites (preceding_steps : List ProcStep) : Option PyErr :=
  let check := (preceding_steps.map (fun x => if x == ProcStep.sextractor then 1 else 0)).sum
  if check < 1 then some PyErr.valueError else none

/- ## Claim theorems -/

/-- C4: the cache fingerprint is a pure function of the batch's
(base_name, processing-history) pairs only: whenever two image batches have
equal multisets of `(base_name, history)` pairs — regardless of element
order, payload bytes, or object identity — `get_hash` produces the same
fingerprint string. -/
theorem C4_get_hash_pure_function_of_pairs (b1 b2 : List ImageM)
    (h : ((b1.map (fun x => (x.base_name, x.proc_history)) : List (String × String)) : Multiset (String × String)) =
         ((b2.map (fun x => (x.base_name, x.proc_history)) : List (String × String)) : Multiset (String × String))) :
    get_hash b1 = get_hash b2 := by
  have hperm : (b1.map (fun x => (x.base_name, x.proc_history))).Perm
      (b2.map (fun x => (x.base_name, x.proc_history))) := Multiset.coe_eq_coe.mp h
  have hperm2 : (b1.map (fun x => x.base_name ++ x.proc_history)).Perm
      (b2.map (fun x => x.base_name ++ x.proc_history)) := by
    have h3 := hperm.map (fun p : String × String => p.1 ++ p.2)
    simpa [List.map_map, Function.comp] using h3
  unfold get_hash
  rw [sorted_strings_eq_of_perm hperm2]

/-- C4 witness: two concrete batches in opposite order, with different
payload bytes, but the same multiset of (base_name, history) pairs, hash
identically. -/
theorem C4_get_hash_witness :
    ((([⟨"a.fits", "dark,", "/r/a.fits", none, none, none, none, none, 3⟩,
        ⟨"b.fits", "bias,", "/r/b.fits", none, none, none, none, none, 4⟩] : List ImageM).map
          (fun x => (x.base_name, x.proc_history)) : Multiset (String × String)) =
     (([⟨"b.fits", "bias,", "/r/b.fits", none, none, none, none, none, 9⟩,
        ⟨"a.fits", "dark,", "/r/a.fits", none, none, none, none, none, 8⟩] : List ImageM).map
          (fun x => (x.base_name, x.proc_history)) : Multiset (String × String)))
    ∧ get_hash [⟨"a.fits", "dark,", "/r/a.fits", none, none, none, none, none, 3⟩,
                ⟨"b.fits", "bias,", "/r/b.fits", none, none, none, none, none, 4⟩] =
      get_hash [⟨"b.fits", "bias,", "/r/b.fits", none, none, none, none, none, 9⟩,
                ⟨"a.fits", "dark,", "/r/a.fits", none, none, none, none, none, 8⟩] :=
  ⟨by decide, C4_get_hash_pure_function_of_pairs _ _ (by decide)⟩

/-- C5 counterexample: `append` on a batch raises `ValueError`, not
`TypeError`, on a type mismatch; and an item whose concrete type is a
strict subclass of the declared element type (so the concrete types do not
match) is accepted into an empty container, not rejected. -/
theorem C5_append_counterexample :
    pseudo_append ⟨BlockTag.image, [⟨BlockTag.image, 0⟩]⟩ ⟨BlockTag.sourceTable, 1⟩
      = (⟨BlockTag.image, [⟨BlockTag.image, 0⟩]⟩, some PyErr.valueError)
  ∧ (pseudo_append ⟨BlockTag.image, [⟨BlockTag.image, 0⟩]⟩ ⟨BlockTag.sourceTable, 1⟩).2
      ≠ some PyErr.typeError
  ∧ pseudo_append ⟨BlockTag.image, []⟩ ⟨BlockTag.specialImage, 2⟩
      = (⟨BlockTag.image, [⟨BlockTag.specialImage, 2⟩]⟩, none) := by
  decide

/-- C5 (amended): `append` raises `ValueError` (not `TypeError`) when the
item is not an instance of the container's declared element type, or (for a
non-empty container) when its concrete type differs from that of the
elements already present; a failed append leaves the container unchanged
(atomicity), and a successful one appends the item at the end. -/
theorem C5_append_valueerror_and_atomic (l : PList) (item : PItem) :
    (isinstance_tag item.tag l.declared = false →
      pseudo_append l item = (l, some PyErr.valueError))
  ∧ (∀ x rest, l.datalist = x :: rest → x.tag ≠ item.tag →
      pseudo_append l item = (l, some PyErr.valueError))
  ∧ ((pseudo_append l item).2.isSome → (pseudo_append l item).1 = l)
  ∧ ((pseudo_append l item).2 = none →
      (pseudo_append l item).1 = ⟨l.declared, l.datalist ++ [item]⟩) := by
  obtain ⟨d, dl⟩ := l
  by_cases hins : isinstance_tag item.tag d
  · cases dl with
    | nil =>
      refine ⟨?_, ?_, ?_, ?_⟩ <;> simp [pseudo_append, hins]
    | cons x rest =>
      by_cases htag : x.tag == item.tag
      · refine ⟨?_, ?_, ?_, ?_⟩ <;> simp_all [pseudo_append, hins, htag]
      · refine ⟨?_, ?_, ?_, ?_⟩ <;> simp_all [pseudo_append, hins, htag]
  · refine ⟨?_, ?_, ?_, ?_⟩ <;> simp_all [pseudo_append, hins]

/-- C5 witness: a concrete failing append — a plain `Image` container that
already holds an `Image` rejects a `specialImage` subclass item with
`ValueError`, leaving the container unchanged. -/
theorem C5_append_witness :
    pseudo_append ⟨BlockTag.image, [⟨BlockTag.image, 0⟩]⟩ ⟨BlockTag.specialImage, 1⟩
      = (⟨BlockTag.image, [⟨BlockTag.image, 0⟩]⟩, some PyErr.valueError) :=
  (C5_append_valueerror_and_atomic ⟨BlockTag.image, [⟨BlockTag.image, 0⟩]⟩
    ⟨BlockTag.specialImage, 1⟩).2.1 ⟨BlockTag.image, 0⟩ [] rfl (by decide)

/-- C9: `__iadd__` appends the other container's items directly to the
internal list with no element-type check, so a pair of containers exists
for which it produces a heterogeneous container that both the checked
`append` and `__add__` reject with an error. -/
theorem C9_iadd_bypasses_type_check :
    (∀ l other : PList, pseudo_iadd l other = ⟨l.declared, l.datalist ++ other.datalist⟩)
  ∧ pseudo_iadd ⟨BlockTag.image, [⟨BlockTag.image, 0⟩]⟩
      ⟨BlockTag.sourceTable, [⟨BlockTag.sourceTable, 1⟩]⟩
      = ⟨BlockTag.image, [⟨BlockTag.image, 0⟩, ⟨BlockTag.sourceTable, 1⟩]⟩
  ∧ homogeneous (pseudo_iadd ⟨BlockTag.image, [⟨BlockTag.image, 0⟩]⟩
      ⟨BlockTag.sourceTable, [⟨BlockTag.sourceTable, 1⟩]⟩) = false
  ∧ (pseudo_append ⟨BlockTag.image, [⟨BlockTag.image, 0⟩]⟩ ⟨BlockTag.sourceTable, 1⟩).2
      = some PyErr.valueError
  ∧ (pseudo_add ⟨BlockTag.image, [⟨BlockTag.image, 0⟩]⟩
      ⟨BlockTag.sourceTable, [⟨BlockTag.sourceTable, 1⟩]⟩).2 = some PyErr.valueError :=
  ⟨fun _ _ => rfl, by decide, by decide, by decide, by decide⟩

/-- C6 counterexample: with no `Sextractor` among the preceding steps, the
Scamp and PSFex prerequisite checks raise `ValueError`, not the
`PrerequisiteError` class defined in `base_processor.py`. -/
theorem C6_check_prerequisites_counterexample :
    scamp_check_prerequisites [ProcStep.otherProc] = some PyErr.valueError
  ∧ scamp_check_prerequisites [ProcStep.otherProc] ≠ some PyErr.prerequisite
  ∧ psfex_check_prerequisites [] = some PyErr.valueError
  ∧ psfex_check_prerequisites [] ≠ some PyErr.prerequisite := by
  decide

theorem prereq_count_pos_iff (steps : List ProcStep) :
    0 < (steps.map (fun x => if x == ProcStep.sextractor then 1 else 0)).sum
      ↔ ProcStep.sextractor ∈ steps := by
  induction steps with
  | nil => simp
  | cons a rest ih =>
    cases a
    · simp
    · simpa using ih

/-- C6 (amended): `check_prerequisites` of Scamp and of PSFex inspects the
ordered list of preceding processor steps and raises `ValueError` (not
`PrerequisiteError`) when no `Sextractor` instance occurs in it; when one
is present, it does not raise. -/
theorem C6_check_prerequisites_valueerror (steps : List ProcStep) :
    (ProcStep.sextractor ∉ steps →
      scamp_check_prerequisites steps = some PyErr.valueError
      ∧ psfex_check_prerequisites steps = some PyErr.valueError)
  ∧ (ProcStep.sextractor ∈ steps →
      scamp_check_prerequisites steps = none
      ∧ psfex_check_prerequisites steps = none) := by
  constructor
  · intro h
    have hz : (steps.map (fun x => if x == ProcStep.sextractor then 1 else 0)).sum = 0 := by
      have hcontra := (prereq_count_pos_iff steps).not.mpr h
      omega
    refine ⟨?_, ?_⟩ <;>
    · simp only [scamp_check_prerequisites, psfex_check_prerequisites, hz]
      norm_num
  · intro h
    have hp := (prereq_count_pos_iff steps).mpr h
    have hz2 : ¬ (steps.map (fun x => if x == ProcStep.sextractor then 1 else 0)).sum < 1 := by
      omega
    refine ⟨?_, ?_⟩ <;>
      simp only [scamp_check_prerequisites, psfex_check_prerequisites, if_neg hz2]

/-- C6 witness: concrete runs — a missing Sextractor raises `ValueError`,
a present one passes. -/
theorem C6_check_prerequisites_witness :
    scamp_check_prerequisites [ProcStep.otherProc, ProcStep.otherProc] = some PyErr.valueError
  ∧ psfex_check_prerequisites [ProcStep.sextractor, ProcStep.otherProc] = none :=
  ⟨((C6_check_prerequisites_valueerror [ProcStep.otherProc, ProcStep.otherProc]).1
      (by decide)).1,
   ((C6_check_prerequisites_valueerror [ProcStep.sextractor, ProcStep.otherProc]).2
      (by decide)).2⟩

/-- C7 counterexample: the clamp does run whenever midway exceeds final,
but the claimed consequence that midway ≤ final afterwards fails for a
negative final duration: with midway 1 and final -10, the clamped value
-9.5 still exceeds the final duration. -/
theorem C7_monitor_clamp_counterexample :
    (1 : ℚ) > -10
  ∧ monitor_clamp_midway 1 (-10) = ((0.95 : ℚ) * (-10), true)
  ∧ ¬ (monitor_clamp_midway 1 (-10)).1 ≤ (-10 : ℚ) := by
  refine ⟨by norm_num, by norm_num [monitor_clamp_midway], ?_⟩
  norm_num [monitor_clamp_midway]

/-- C7 (amended): when `midway_postprocess_hours` exceeds
`final_postprocess_hours`, construction clamps midway to 0.95 times the
final duration and records a warning — so midway ≤ final holds afterwards
whenever the final duration is nonnegative; when midway ≤ final, the value
is left unchanged and no warning is recorded. -/
theorem C7_monitor_clamp_midway (midway final : ℚ) :
    (midway > final → monitor_clamp_midway midway final = ((0.95 : ℚ) * final, true))
  ∧ (midway > final → 0 ≤ final → (monitor_clamp_midway midway final).1 ≤ final)
  ∧ (midway ≤ final → monitor_clamp_midway midway final = (midway, false)) := by
  refine ⟨fun h => by simp [monitor_clamp_midway, h], fun h h0 => ?_, fun h => by
    simp [monitor_clamp_midway, not_lt.mpr h]⟩
  simp only [monitor_clamp_midway, if_pos h]
  nlinarith

/-- C7 witness: the spec scenario — midway 20, final 10 clamps to 9.5 with
a warning, and 9.5 ≤ 10; midway 5, final 10 is left unchanged. -/
theorem C7_monitor_clamp_witness :
    monitor_clamp_midway 20 10 = ((0.95 : ℚ) * 10, true)
  ∧ (monitor_clamp_midway 20 10).1 ≤ (10 : ℚ)
  ∧ monitor_clamp_midway 5 10 = (5, false) :=
  ⟨(C7_monitor_clamp_midway 20 10).1 (by norm_num),
   (C7_monitor_clamp_midway 20 10).2.1 (by norm_num) (by norm_num),
   (C7_monitor_clamp_midway 5 10).2.2 (by norm_num)⟩

/-- C8 counterexample: `clean_cache` does not succeed unconditionally —
with one registered scratch file that is already missing from disk, the
bare `Path.unlink()` raises `FileNotFoundError` and the registry is never
emptied. -/
theorem C8_clean_cache_counterexample :
    clean_cache ⟨[], ["a.npy"]⟩ = .error PyErr.fileNotFound := by
  rfl

theorem clean_cache_loop_ok (reg : List String) :
    ∀ files : List String, reg.Nodup → files.Nodup → (∀ p ∈ reg, p ∈ files) →
    ∃ files2, clean_cache_loop reg files = .ok files2 ∧ files2.Nodup
      ∧ (∀ p ∈ reg, p ∉ files2) ∧ (∀ q ∈ files2, q ∈ files) := by
  induction reg with
  | nil =>
    intro files _ hf _
    exact ⟨files, rfl, hf, by simp, fun q hq => hq⟩
  | cons p rest ih =>
    intro files hnd hf hsub
    have hp : p ∈ files := hsub p (by simp)
    have hstep : unlink_strict p files = .ok (files.erase p) := by
      simp [unlink_strict, hp]
    have hrest : rest.Nodup := (List.nodup_cons.mp hnd).2
    have hf2 : (files.erase p).Nodup := hf.erase p
    have hsub2 : ∀ q ∈ rest, q ∈ files.erase p := by
      intro q hq
      have hqp : q ≠ p := by
        intro hqp
        exact (List.nodup_cons.mp hnd).1 (hqp ▸ hq)
      exact (List.mem_erase_of_ne hqp).mpr (hsub q (by simp [hq]))
    obtain ⟨files2, hloop, hnd2, hnotin, hsubf⟩ := ih (files.erase p) hrest hf2 hsub2
    refine ⟨files2, ?_, hnd2, ?_, fun q hq => List.erase_subset _ _ (hsubf q hq)⟩
    · simp [clean_cache_loop, hstep, hloop]
    · intro q hq
      rcases List.mem_cons.mp hq with rfl | hq2
      · intro hcon
        exact ((hf.mem_erase_iff).mp (hsubf q hcon)).1 rfl
      · exact hnotin q hq2

/-- C8 (amended): `clean_cache` removes every registered scratch file and
empties the registry when all registered files still exist on disk; when a
registered file is already missing, the bare `unlink` raises
`FileNotFoundError` instead (see the counterexample).  Additionally, when
an `Image` is finalized, `__del__` removes its own file and registry entry. -/
theorem C8_clean_cache_when_files_present (s : ScratchState)
    (hsub : ∀ p ∈ s.registry, p ∈ s.files)
    (hreg : s.registry.Nodup) (hfiles : s.files.Nodup) :
    (∃ files2, clean_cache s = .ok ⟨files2, []⟩ ∧ ∀ p ∈ s.registry, p ∉ files2)
  ∧ (∀ p ∈ s.registry, image_del s p = .ok ⟨s.files.erase p, s.registry.erase p⟩) := by
  constructor
  · obtain ⟨files2, hloop, _, hnotin, _⟩ :=
      clean_cache_loop_ok s.registry s.files hreg hfiles hsub
    exact ⟨files2, by simp [clean_cache, hloop], hnotin⟩
  · intro p hp
    simp [image_del, hp]

/-- C8 witness: a concrete state in which every registered file exists —
cleanup succeeds and empties the registry, and `__del__` removes the
entry. -/
theorem C8_clean_cache_witness :
    (∃ files2, clean_cache ⟨["a.npy", "b.npy"], ["a.npy"]⟩ = .ok ⟨files2, []⟩
      ∧ ∀ p ∈ (["a.npy"] : List String), p ∉ files2)
  ∧ (∀ p ∈ (["a.npy"] : List String),
      image_del ⟨["a.npy", "b.npy"], ["a.npy"]⟩ p =
        .ok ⟨["a.npy", "b.npy"].erase p, ["a.npy"].erase p⟩) :=
  C8_clean_cache_when_files_present ⟨["a.npy", "b.npy"], ["a.npy"]⟩
    (by decide) (by decide) (by decide)

/-- C2: a successful `apply` returns a batch in which every surviving
block's processing-history string has the processor's key appended exactly
once, at the end and comma-terminated, with all four provenance fields
stamped (and the identity and payload untouched); when the subclass
transformation raises, `apply` propagates the exception and no history or
provenance field is modified (the history update never runs). -/
theorem C2_apply_stamps_history_once (P : ProcessorM) (prov : Provenance)
    (batch : List ImageM) :
    (∀ b2, P.appF batch = .ok b2 →
      ∃ out, BaseProcessor.apply P prov batch = .ok out
        ∧ out.length = b2.length
        ∧ ∀ i (h : i < out.length) (h2 : i < b2.length),
            (out.get ⟨i, h⟩).proc_history
              = (b2.get ⟨i, h2⟩).proc_history ++ P.base_key ++ ","
          ∧ (out.get ⟨i, h⟩).reducer = some prov.user
          ∧ (out.get ⟨i, h⟩).redmach = some prov.host
          ∧ (out.get ⟨i, h⟩).redtime = some prov.time
          ∧ (out.get ⟨i, h⟩).redsoft = some prov.package
          ∧ (out.get ⟨i, h⟩).base_name = (b2.get ⟨i, h2⟩).base_name
          ∧ (out.get ⟨i, h⟩).data = (b2.get ⟨i, h2⟩).data)
  ∧ (∀ e, P.appF batch = .error e → BaseProcessor.apply P prov batch = .error e) := by
  constructor
  · intro b2 hok
    refine ⟨update_processing_history P.base_key prov b2, ?_, ?_, ?_⟩
    · simp [BaseProcessor.apply, hok]
    · simp [update_processing_history]
    · intro i h h2
      simp [update_processing_history, List.get_eq_getElem]
  · intro e herr
    simp [BaseProcessor.apply, herr]

/-- C2 witness: a concrete identity transformation stamps one block, and a
concrete raising transformation propagates the error with no stamping. -/
theorem C2_apply_stamps_history_witness :
    (∃ out,
      BaseProcessor.apply ⟨"stack", "winterdrp.processors.stack", fun b => .ok b⟩
          ⟨"op", "host", "t0", "winterdrp"⟩
          [⟨"a.fits", "bias,", "/r/a.fits", none, none, none, none, none, 5⟩] = .ok out
      ∧ out.length = 1
      ∧ ∀ i (h : i < out.length)
          (h2 : i < ([⟨"a.fits", "bias,", "/r/a.fits", none, none, none, none, none, 5⟩] : List ImageM).length),
          (out.get ⟨i, h⟩).proc_history
            = (([⟨"a.fits", "bias,", "/r/a.fits", none, none, none, none, none, 5⟩] : List ImageM).get ⟨i, h2⟩).proc_history
                ++ "stack" ++ ","
        ∧ (out.get ⟨i, h⟩).reducer = some "op"
        ∧ (out.get ⟨i, h⟩).redmach = some "host"
        ∧ (out.get ⟨i, h⟩).redtime = some "t0"
        ∧ (out.get ⟨i, h⟩).redsoft = some "winterdrp"
        ∧ (out.get ⟨i, h⟩).base_name
            = (([⟨"a.fits", "bias,", "/r/a.fits", none, none, none, none, none, 5⟩] : List ImageM).get ⟨i, h2⟩).base_name
        ∧ (out.get ⟨i, h⟩).data
            = (([⟨"a.fits", "bias,", "/r/a.fits", none, none, none, none, none, 5⟩] : List ImageM).get ⟨i, h2⟩).data)
  ∧ BaseProcessor.apply ⟨"stack", "winterdrp.processors.stack", fun _ => .error PyErr.otherExc⟩
      ⟨"op", "host", "t0", "winterdrp"⟩
      [⟨"a.fits", "bias,", "/r/a.fits", none, none, none, none, none, 5⟩]
      = .error PyErr.otherExc :=
  ⟨(C2_apply_stamps_history_once ⟨"stack", "winterdrp.processors.stack", fun b => .ok b⟩
      ⟨"op", "host", "t0", "winterdrp"⟩
      [⟨"a.fits", "bias,", "/r/a.fits", none, none, none, none, none, 5⟩]).1
      [⟨"a.fits", "bias,", "/r/a.fits", none, none, none, none, none, 5⟩] rfl,
   (C2_apply_stamps_history_once ⟨"stack", "winterdrp.processors.stack", fun _ => .error PyErr.otherExc⟩
      ⟨"op", "host", "t0", "winterdrp"⟩
      [⟨"a.fits", "bias,", "/r/a.fits", none, none, none, none, none, 5⟩]).2
      PyErr.otherExc rfl⟩

/-- C3: when applying the processor to one batch raises an error (other
than the noncritical class, which C10 covers), `base_apply` catches it at
the apply boundary, wraps it into an error report carrying the processor
identity (its module) and that batch's raw image names, drops the failing
batch from the output dataset, and still processes all remaining batches
exactly as it would have. -/
theorem C3_base_apply_isolates_failure (P : ProcessorM) (prov : Provenance)
    (pre post : List (List ImageM)) (batch : List ImageM) (e : PyErr)
    (herr : BaseProcessor.apply P prov batch = .error e)
    (hnc : e.isNoncritical = false) :
    BaseProcessor.base_apply P prov (pre ++ batch :: post) =
      ((BaseProcessor.base_apply P prov pre).1 ++ (BaseProcessor.base_apply P prov post).1,
       (BaseProcessor.base_apply P prov pre).2
         ++ ErrorReport.mk e P.module (get_raw_image_names batch)
           :: (BaseProcessor.base_apply P prov post).2) := by
  rw [BaseProcessor.base_apply_append]
  simp [BaseProcessor.base_apply, herr, hnc, generate_error_report]

/-- C3 witness: a three-batch dataset in which the middle batch raises; the
two other batches survive processing and a report naming the module and the
raw image names of the failing batch is recorded. -/
theorem C3_base_apply_isolates_witness :
    BaseProcessor.base_apply
        ⟨"flat", "winterdrp.processors.flat",
          fun b => if b.length == 1 then .error PyErr.otherExc else .ok b⟩
        ⟨"op", "host", "t0", "winterdrp"⟩
        ([[⟨"a.fits", "", "/r/a.fits", none, none, none, none, none, 0⟩,
           ⟨"b.fits", "", "/r/b.fits", none, none, none, none, none, 0⟩]]
          ++ [⟨"c.fits", "", "/r/sub/c.fits", none, none, none, none, none, 0⟩]
          :: [[⟨"d.fits", "", "/r/d.fits", none, none, none, none, none, 0⟩,
               ⟨"e.fits", "", "/r/e.fits", none, none, none, none, none, 0⟩]]) =
      ((BaseProcessor.base_apply
          ⟨"flat", "winterdrp.processors.flat",
            fun b => if b.length == 1 then .error PyErr.otherExc else .ok b⟩
          ⟨"op", "host", "t0", "winterdrp"⟩
          [[⟨"a.fits", "", "/r/a.fits", none, none, none, none, none, 0⟩,
            ⟨"b.fits", "", "/r/b.fits", none, none, none, none, none, 0⟩]]).1
        ++ (BaseProcessor.base_apply
          ⟨"flat", "winterdrp.processors.flat",
            fun b => if b.length == 1 then .error PyErr.otherExc else .ok b⟩
          ⟨"op", "host", "t0", "winterdrp"⟩
          [[⟨"d.fits", "", "/r/d.fits", none, none, none, none, none, 0⟩,
            ⟨"e.fits", "", "/r/e.fits", none, none, none, none, none, 0⟩]]).1,
       (BaseProcessor.base_apply
          ⟨"flat", "winterdrp.processors.flat",
            fun b => if b.length == 1 then .error PyErr.otherExc else .ok b⟩
          ⟨"op", "host", "t0", "winterdrp"⟩
          [[⟨"a.fits", "", "/r/a.fits", none, none, none, none, none, 0⟩,
            ⟨"b.fits", "", "/r/b.fits", none, none, none, none, none, 0⟩]]).2
        ++ ErrorReport.mk PyErr.otherExc "winterdrp.processors.flat"
            (get_raw_image_names
              [⟨"c.fits", "", "/r/sub/c.fits", none, none, none, none, none, 0⟩])
          :: (BaseProcessor.base_apply
          ⟨"flat", "winterdrp.processors.flat",
            fun b => if b.length == 1 then .error PyErr.otherExc else .ok b⟩
          ⟨"op", "host", "t0", "winterdrp"⟩
          [[⟨"d.fits", "", "/r/d.fits", none, none, none, none, none, 0⟩,
            ⟨"e.fits", "", "/r/e.fits", none, none, none, none, none, 0⟩]]).2) :=
  C3_base_apply_isolates_failure _ _ _ _ _ _ rfl rfl

/-- C10: when applying the processor to one batch raises a
`NoncriticalProcessingError`, `base_apply` records an error report but
keeps that batch — unchanged, hence unstamped — in the output dataset: any
block whose history did not contain the processor's key still survives in
a kept batch with its history free of the key.  Any other exception causes
the batch to be omitted from the output dataset (with a report recorded). -/
theorem C10_noncritical_keeps_unstamped_batch (P : ProcessorM) (prov : Provenance)
    (pre post : List (List ImageM)) (batch : List ImageM) (e : PyErr)
    (herr : P.appF batch = .error e) :
    (e.isNoncritical = true →
      BaseProcessor.base_apply P prov (pre ++ batch :: post) =
        ((BaseProcessor.base_apply P prov pre).1
            ++ batch :: (BaseProcessor.base_apply P prov post).1,
         (BaseProcessor.base_apply P prov pre).2
            ++ generate_error_report P e batch
              :: (BaseProcessor.base_apply P prov post).2)
      ∧ ∀ blk ∈ batch, ¬ P.base_key.data <:+: blk.proc_history.data →
          ∃ kept ∈ (BaseProcessor.base_apply P prov (pre ++ batch :: post)).1,
            blk ∈ kept ∧ ¬ P.base_key.data <:+: blk.proc_history.data)
  ∧ (e.isNoncritical = false →
      BaseProcessor.base_apply P prov (pre ++ batch :: post) =
        ((BaseProcessor.base_apply P prov pre).1
            ++ (BaseProcessor.base_apply P prov post).1,
         (BaseProcessor.base_apply P prov pre).2
            ++ generate_error_report P e batch
              :: (BaseProcessor.base_apply P prov post).2)) := by
  have happly : BaseProcessor.apply P prov batch = .error e := by
    simp [BaseProcessor.apply, herr]
  constructor
  · intro hnc
    have heq : BaseProcessor.base_apply P prov (pre ++ batch :: post) =
        ((BaseProcessor.base_apply P prov pre).1
            ++ batch :: (BaseProcessor.base_apply P prov post).1,
         (BaseProcessor.base_apply P prov pre).2
            ++ generate_error_report P e batch
              :: (BaseProcessor.base_apply P prov post).2) := by
      rw [BaseProcessor.base_apply_append]
      simp [BaseProcessor.base_apply, happly, hnc]
    refine ⟨heq, fun blk hblk hfree => ⟨batch, ?_, hblk, hfree⟩⟩
    rw [heq]
    exact List.mem_append_right _ (List.mem_cons_self _ _)
  · intro hnc
    rw [BaseProcessor.base_apply_append]
    simp [BaseProcessor.base_apply, happly, hnc]

/-- C10 witness: a processor raising `NoncriticalProcessingError` on one
batch keeps it, unstamped, beside a surviving batch; the same setup with an
ordinary exception drops the failing batch. -/
theorem C10_noncritical_keeps_witness :
    (BaseProcessor.base_apply
        ⟨"autoflat", "winterdrp.processors.autoflat",
          fun b => if b.length == 1 then .error PyErr.noncriticalProcessing else .ok b⟩
        ⟨"op", "host", "t0", "winterdrp"⟩
        ([] ++ [⟨"c.fits", "dark,", "/r/c.fits", none, none, none, none, none, 0⟩]
          :: [[⟨"d.fits", "", "/r/d.fits", none, none, none, none, none, 0⟩,
               ⟨"e.fits", "", "/r/e.fits", none, none, none, none, none, 0⟩]]) =
      ((BaseProcessor.base_apply
          ⟨"autoflat", "winterdrp.processors.autoflat",
            fun b => if b.length == 1 then .error PyErr.noncriticalProcessing else .ok b⟩
          ⟨"op", "host", "t0", "winterdrp"⟩ ([] : List (List ImageM))).1
          ++ [⟨"c.fits", "dark,", "/r/c.fits", none, none, none, none, none, 0⟩]
            :: (BaseProcessor.base_apply
          ⟨"autoflat", "winterdrp.processors.autoflat",
            fun b => if b.length == 1 then .error PyErr.noncriticalProcessing else .ok b⟩
          ⟨"op", "host", "t0", "winterdrp"⟩
          [[⟨"d.fits", "", "/r/d.fits", none, none, none, none, none, 0⟩,
            ⟨"e.fits", "", "/r/e.fits", none, none, none, none, none, 0⟩]]).1,
       (BaseProcessor.base_apply
          ⟨"autoflat", "winterdrp.processors.autoflat",
            fun b => if b.length == 1 then .error PyErr.noncriticalProcessing else .ok b⟩
          ⟨"op", "host", "t0", "winterdrp"⟩ ([] : List (List ImageM))).2
          ++ generate_error_report
              ⟨"autoflat", "winterdrp.processors.autoflat",
                fun b => if b.length == 1 then .error PyErr.noncriticalProcessing else .ok b⟩
              PyErr.noncriticalProcessing
              [⟨"c.fits", "dark,", "/r/c.fits", none, none, none, none, none, 0⟩]
            :: (BaseProcessor.base_apply
          ⟨"autoflat", "winterdrp.processors.autoflat",
            fun b => if b.length == 1 then .error PyErr.noncriticalProcessing else .ok b⟩
          ⟨"op", "host", "t0", "winterdrp"⟩
          [[⟨"d.fits", "", "/r/d.fits", none, none, none, none, none, 0⟩,
            ⟨"e.fits", "", "/r/e.fits", none, none, none, none, none, 0⟩]]).2))
    ∧ ∀ blk ∈ ([⟨"c.fits", "dark,", "/r/c.fits", none, none, none, none, none, 0⟩] : List ImageM),
        ¬ ("autoflat").data <:+: blk.proc_history.data →
        ∃ kept ∈ (BaseProcessor.base_apply
            ⟨"autoflat", "winterdrp.processors.autoflat",
              fun b => if b.length == 1 then .error PyErr.noncriticalProcessing else .ok b⟩
            ⟨"op", "host", "t0", "winterdrp"⟩
            ([] ++ [⟨"c.fits", "dark,", "/r/c.fits", none, none, none, none, none, 0⟩]
              :: [[⟨"d.fits", "", "/r/d.fits", none, none, none, none, none, 0⟩,
                   ⟨"e.fits", "", "/r/e.fits", none, none, none, none, none, 0⟩]])).1,
          blk ∈ kept ∧ ¬ ("autoflat").data <:+: blk.proc_history.data :=
  (C10_noncritical_keeps_unstamped_batch
    ⟨"autoflat", "winterdrp.processors.autoflat",
      fun b => if b.length == 1 then .error PyErr.noncriticalProcessing else .ok b⟩
    ⟨"op", "host", "t0", "winterdrp"⟩ []
    [[⟨"d.fits", "", "/r/d.fits", none, none, none, none, none, 0⟩,
      ⟨"e.fits", "", "/r/e.fits", none, none, none, none, none, 0⟩]]
    [⟨"c.fits", "dark,", "/r/c.fits", none, none, none, none, none, 0⟩]
    PyErr.noncriticalProcessing rfl).1 rfl

/-- C1: `get_cache_file` first derives the deterministic cache path from
the batch (a pure function of the configuration and the selected images'
fingerprint); if `try_load_cache` is enabled and a file exists at that
path, it loads and returns that cached image without invoking `make_image`
(zero invocations, filesystem untouched); otherwise it invokes `make_image`
exactly once and persists the result at the path exactly when
`write_to_cache` is enabled and (the file did not previously exist or
`overwrite` is set); consequently, after a first call with
`write_to_cache`, a second call with any batch of the same fingerprint and
`try_load_cache` returns the stored artifact without invoking `make_image`
again. -/
theorem C1_get_cache_file_contract (cfg : CacheCfg)
    (select : List ImageM → List ImageM) (mk : List ImageM → ImageM)
    (fs : FS) (images : List ImageM) :
    (∀ img, cfg.try_load_cache = true →
      List.lookup (get_cache_path cfg select images) fs = some img →
      get_cache_file cfg select mk fs images = (img, fs, 0))
  ∧ (List.lookup (get_cache_path cfg select images) fs = none →
      get_cache_file cfg select mk fs images =
        (mk images,
         if cfg.write_to_cache then
           save_fits (mk images) (get_cache_path cfg select images) fs
         else fs, 1))
  ∧ (∀ img, cfg.try_load_cache = false →
      List.lookup (get_cache_path cfg select images) fs = some img →
      get_cache_file cfg select mk fs images =
        (mk images,
         if cfg.write_to_cache && cfg.overwrite then
           save_fits (mk images) (get_cache_path cfg select images) fs
         else fs, 1))
  ∧ (∀ images2, cfg.try_load_cache = true → cfg.write_to_cache = true →
      get_hash (select images2) = get_hash (select images) →
      ∃ stored,
        List.lookup (get_cache_path cfg select images)
          (get_cache_file cfg select mk fs images).2.1 = some stored
        ∧ get_cache_file cfg select mk
            (get_cache_file cfg select mk fs images).2.1 images2 =
          (stored, (get_cache_file cfg select mk fs images).2.1, 0)) := by
  refine ⟨?_, ?_, ?_, ?_⟩
  · intro img htry hlk
    simp [get_cache_file, hlk, htry]
  · intro hlk
    simp [get_cache_file, hlk]
  · intro img htry hlk
    simp [get_cache_file, hlk, htry]
  · intro images2 htry hwrite hhash
    have hpath : get_cache_path cfg select images2 = get_cache_path cfg select images := by
      unfold get_cache_path get_cache_file_name
      rw [hhash]
    cases hlk : List.lookup (get_cache_path cfg select images) fs with
    | some cached =>
      have hfirst : get_cache_file cfg select mk fs images = (cached, fs, 0) := by
        simp [get_cache_file, hlk, htry]
      rw [hfirst]
      exact ⟨cached, hlk, by simp [get_cache_file, hpath, hlk, htry]⟩
    | none =>
      have hfirst : get_cache_file cfg select mk fs images =
          (mk images,
           save_fits (mk images) (get_cache_path cfg select images) fs, 1) := by
        simp [get_cache_file, hlk, hwrite]
      rw [hfirst]
      refine ⟨{ mk images with save_path := some (get_cache_path cfg select images) }, ?_, ?_⟩
      · simp [save_fits, List.lookup]
      · simp [get_cache_file, hpath, save_fits, List.lookup, htry]

/-- Concrete cache configuration used by the C1 witness. -/
def cfgW : CacheCfg := ⟨true, true, true, "bias", "calibration", "night1", "/out"⟩

/-- Concrete `make_image` used by the C1 witness. -/
def mkW : List ImageM → ImageM :=
  fun _ => ⟨"master_bias", "", "stacked", none, none, none, none, none, 42⟩

/-- Concrete input batch used by the C1 witness. -/
def imgsW : List ImageM := [⟨"a.fits", "bias,", "/r/a.fits", none, none, none, none, none, 1⟩]

/-- C1 witness: on an empty filesystem the production step runs once and
the artifact is persisted; a second call with the same fingerprint then
returns the stored artifact with zero `make_image` invocations. -/
theorem C1_get_cache_file_witness :
    get_cache_file cfgW (fun b => b) mkW [] imgsW =
      (mkW imgsW,
       if cfgW.write_to_cache then
         save_fits (mkW imgsW) (get_cache_path cfgW (fun b => b) imgsW) []
       else [], 1)
  ∧ ∃ stored,
      List.lookup (get_cache_path cfgW (fun b => b) imgsW)
        (get_cache_file cfgW (fun b => b) mkW [] imgsW).2.1 = some stored
      ∧ get_cache_file cfgW (fun b => b) mkW
          (get_cache_file cfgW (fun b => b) mkW [] imgsW).2.1 imgsW =
        (stored, (get_cache_file cfgW (fun b => b) mkW [] imgsW).2.1, 0) :=
  ⟨(C1_get_cache_file_contract cfgW (fun b => b) mkW [] imgsW).2.1 rfl,
   (C1_get_cache_file_contract cfgW (fun b => b) mkW [] imgsW).2.2.2 imgsW rfl rfl rfl⟩
